import Mathlib

/-!
Verification of the box2 end-to-end-encrypted messaging system.

The development shallow-embeds the envelope codec (app/src/utils, the
crypto part stored alongside recentRooms.ts), the identity and trust
module (app/src/pages/Room.tsx and app/src/utils/keyStore.ts) and the
room coordinator (api/src/durable-object.ts, which contains three
revisions of the RecipeRoom class separated by document markers: the
current revision with name claims and broadcast-first ordering, an
intermediate persist-first revision, and a validation revision with
msgId and base64 checks).

Platform primitives (WebCrypto AES-GCM, PBKDF2, ECDSA, base64
transport via btoa and atob, TextEncoder, canonical JSON
stringification) are not repository code; they are embedded
symbolically: the authenticated cipher is an ideal AEAD box whose
decryption succeeds exactly when key, nonce and additional data match,
key derivation is an ideal injective KDF, and the byte serialization
of a JSON document is identified with the document itself.
-/

/-- JSON values, restricted to the shapes the message payload uses.
The platform pair JSON.stringify and JSON.parse is a bijection
between such documents and their canonical strings, so the byte form
of a payload is identified with its document. -/
inductive Json where
  | str (s : String)
  | num (n : Int)
  | obj (fields : List (String × Json))

/-- Field access on a JSON object, first binding wins (duck-typed
field reads in the source). -/
def Json.getField : Json → String → Option Json
  | .obj fs, k => fs.lookup k
  | _, _ => none

/-- ECDSA P-256 public key in JWK form. Only the four components that
keyStore.ts jwkEqual compares are carried. -/
structure JsonWebKey where
  kty : Option String
  crv : Option String
  x : Option String
  y : Option String
deriving DecidableEq

/-- From keyStore.ts: compare two JWKs for equality (a.x === b.x and
a.y === b.y and a.crv === b.crv and a.kty === b.kty). -/
def jwkEqual (a b : JsonWebKey) : Bool :=
  a.x == b.x && a.y == b.y && a.crv == b.crv && a.kty == b.kty

/-- Modelled from the spec: crypto.ts is not under src (Room.tsx
imports signMessage and verifySignature from ../utils/crypto). Per
spec section 4.2 a signature binds message content, claimed author,
client-asserted time and message identity; it is embedded as the
symbolic record of those bound fields together with the public key of
the signer. -/
structure SignatureB64 where
  signerPublicKeyJwk : JsonWebKey
  text : String
  displayName : String
  clientTs : Int
  msgId : String
deriving DecidableEq

/-- Message payload (crypto.ts MessagePayload as used by Room.tsx):
text, displayName, clientTs, plus the optional signature fields
assigned by sendMessage in Room.tsx. -/
structure MessagePayload where
  text : String
  displayName : String
  clientTs : Int
  signatureB64 : Option SignatureB64
  senderPublicKeyJwk : Option JsonWebKey
deriving DecidableEq

/-- JSON.stringify omits absent optional fields; an Option field
contributes either nothing or one binding. -/
def optField (name : String) : Option Json → List (String × Json)
  | none => []
  | some j => [(name, j)]

/-- Serialize an optional string JWK component. -/
def jwkToJson (k : JsonWebKey) : Json :=
  .obj (optField "kty" (k.kty.map .str) ++ optField "crv" (k.crv.map .str) ++
    optField "x" (k.x.map .str) ++ optField "y" (k.y.map .str))

/-- Read an optional string field back: absent stays absent, a string
is kept, any other shape is a decoding failure. -/
def jsonStrOpt : Option Json → Option (Option String)
  | none => some none
  | some (.str s) => some (some s)
  | some _ => none

/-- Parse a JWK object back from its JSON form. -/
def jsonToJwk (j : Json) : Option JsonWebKey :=
  match jsonStrOpt (j.getField "kty"), jsonStrOpt (j.getField "crv"),
      jsonStrOpt (j.getField "x"), jsonStrOpt (j.getField "y") with
  | some kty, some crv, some x, some y => some ⟨kty, crv, x, y⟩
  | _, _, _, _ => none

/-- Serialize the symbolic signature record. -/
def sigToJson (s : SignatureB64) : Json :=
  .obj [("signerPublicKeyJwk", jwkToJson s.signerPublicKeyJwk), ("text", .str s.text),
    ("displayName", .str s.displayName), ("clientTs", .num s.clientTs),
    ("msgId", .str s.msgId)]

/-- Parse the symbolic signature record. -/
def jsonToSig (j : Json) : Option SignatureB64 :=
  match j.getField "signerPublicKeyJwk", j.getField "text", j.getField "displayName",
      j.getField "clientTs", j.getField "msgId" with
  | some kj, some (.str t), some (.str d), some (.num c), some (.str m) =>
    match jsonToJwk kj with
    | some k => some ⟨k, t, d, c, m⟩
    | none => none
  | _, _, _, _, _ => none

/-- JSON.stringify of a MessagePayload: the three required fields,
then the optional signature fields when present. -/
def payloadToJson (p : MessagePayload) : Json :=
  .obj ([("text", .str p.text), ("displayName", .str p.displayName),
      ("clientTs", .num p.clientTs)] ++
    optField "signatureB64" (p.signatureB64.map sigToJson) ++
    optField "senderPublicKeyJwk" (p.senderPublicKeyJwk.map jwkToJson))

/-- Parse an optional subobject with a given field parser. -/
def jsonSubOpt {α : Type} (f : Json → Option α) : Option Json → Option (Option α)
  | none => some none
  | some j => (f j).map some

/-- JSON.parse of a MessagePayload (duck-typed field reads as in the
source cast to MessagePayload). -/
def jsonToPayload (j : Json) : Option MessagePayload :=
  match j.getField "text", j.getField "displayName", j.getField "clientTs",
      jsonSubOpt jsonToSig (j.getField "signatureB64"),
      jsonSubOpt jsonToJwk (j.getField "senderPublicKeyJwk") with
  | some (.str t), some (.str d), some (.num c), some sig, some pk =>
    some ⟨t, d, c, sig, pk⟩
  | _, _, _, _, _ => none

/-- Symbolic 256-bit AES-GCM key. PBKDF2-HMAC-SHA256 is a platform
primitive; it is embedded as an ideal key-derivation function, so a
key is the record of the derivation inputs and two keys coincide
exactly when passphrase, salt and iteration count all coincide. -/
structure CryptoKeyAES where
  passphrase : String
  saltB64 : String
  iterations : Nat
deriving DecidableEq

/-- From the crypto utils: derive an AES-GCM key from a passphrase
with PBKDF2-HMAC-SHA256 over the per-room salt and iteration count.
Deterministic in its inputs. -/
def deriveKeyPBKDF2 (passphrase : String) (saltB64 : String) (iterations : Nat) :
    CryptoKeyAES :=
  ⟨passphrase, saltB64, iterations⟩

/-- Symbolic AES-GCM box: an authenticated ciphertext records the
key, the 96-bit nonce, the additional authenticated data and the
protected document; the 128-bit tag check is embedded as the exact
match of key, nonce and AAD on decryption. -/
structure GCMBox where
  key : CryptoKeyAES
  iv : List Nat
  aad : String
  plaintext : Json

/-- Ideal AEAD encryption. -/
def gcmEncrypt (key : CryptoKeyAES) (iv : List Nat) (aad : String) (pt : Json) :
    GCMBox :=
  ⟨key, iv, aad, pt⟩

/-- Ideal AEAD decryption: succeeds exactly when key, nonce and AAD
match the ones the box was sealed under (otherwise the tag check
fails, as crypto.subtle.decrypt throwing OperationError). -/
def gcmDecrypt (key : CryptoKeyAES) (iv : List Nat) (aad : String) (ct : GCMBox) :
    Option Json :=
  if ct.key = key ∧ ct.iv = iv ∧ ct.aad = aad then some ct.plaintext else none

/-- From the crypto utils buildAAD: concatenate roomId, version and
msgId with the delimiter to prevent ambiguity. TextEncoder is
injective, so the AAD bytes are identified with the string. -/
def buildAAD (roomId : String) (version : Int) (msgId : String) : String :=
  roomId ++ "|" ++ toString version ++ "|" ++ msgId

/-- Spec section 7 error taxonomy for the decrypt path. -/
inductive CryptoError where
  | authenticationError
  | decodingError
deriving DecidableEq

/-- Result of encryptPayload: base64 transport of the fresh nonce and
of the sealed box. btoa and atob form a platform bijection, so the
transport encoding is the identity on the underlying values. -/
structure EncryptedEnvelope where
  ivB64 : List Nat
  ciphertextB64 : GCMBox

/-- From the crypto utils encryptPayload: seal the JSON form of the
payload under the AAD built from roomId, version and msgId. The fresh
random 96-bit nonce is passed explicitly (randomness consumption made
explicit). -/
def encryptPayload (key : CryptoKeyAES) (roomId : String) (version : Int)
    (msgId : String) (payload : MessagePayload) (iv : List Nat) :
    EncryptedEnvelope :=
  ⟨iv, gcmEncrypt key iv (buildAAD roomId version msgId) (payloadToJson payload)⟩

/-- From the crypto utils decryptPayload: recompute the AAD from
roomId, version and msgId, open the box (tag failure is
AuthenticationError) and parse the plaintext JSON (parse failure is
DecodingError). -/
def decryptPayload (key : CryptoKeyAES) (roomId : String) (version : Int)
    (msgId : String) (ivB64 : List Nat) (ciphertextB64 : GCMBox) :
    Except CryptoError MessagePayload :=
  match gcmDecrypt key ivB64 (buildAAD roomId version msgId) ciphertextB64 with
  | none => .error .authenticationError
  | some j =>
    match jsonToPayload j with
    | none => .error .decodingError
    | some p => .ok p

/-- From keyStore.ts: per-message trust classification states. -/
inductive TrustStatus where
  | verified
  | new
  | mismatch
  | unsigned
deriving DecidableEq

/-- From keyStore.ts: a trusted key record, the public key first seen
for a (room, displayName) pair and when it was first seen. -/
structure TrustedKey where
  publicKeyJwk : JsonWebKey
  firstSeen : Int
deriving DecidableEq

/-- The IndexedDB trust store, keyed by trustKeyId. A put is embedded
as a cons; lookups take the first binding, so a cons is exactly the
overwrite-or-insert of IDBObjectStore.put. -/
def TrustStore : Type := List (String × TrustedKey)

/-- From keyStore.ts trustKeyId: roomId and displayName joined by a
colon. -/
def trustKeyId (roomId displayName : String) : String :=
  roomId ++ ":" ++ displayName

/-- From keyStore.ts getTrustedKey. -/
def getTrustedKey (store : TrustStore) (roomId displayName : String) :
    Option TrustedKey :=
  List.lookup (trustKeyId roomId displayName) store

/-- From keyStore.ts saveTrustedKey: store the public key with its
first-seen time. -/
def saveTrustedKey (store : TrustStore) (roomId displayName : String)
    (publicKeyJwk : JsonWebKey) (now : Int) : TrustStore :=
  (trustKeyId roomId displayName, ⟨publicKeyJwk, now⟩) :: store

/-- Modelled from the spec: crypto.ts generateSigningKeypair is not
under src; a keypair is identified by its public JWK and holding the
record stands for holding the private half. -/
structure SigningKeypair where
  publicKeyJwk : JsonWebKey
deriving DecidableEq

/-- Modelled from the spec: crypto.ts signMessage is not under src.
Per spec section 4.2 the signature binds text, displayName, clientTs
and msgId in fixed order to the signing identity. -/
def signMessage (kp : SigningKeypair) (text displayName : String)
    (clientTs : Int) (msgId : String) : SignatureB64 :=
  ⟨kp.publicKeyJwk, text, displayName, clientTs, msgId⟩

/-- Modelled from the spec: crypto.ts importPublicKeyJwk is not under
src; importing a JWK yields the key it denotes. -/
def importPublicKeyJwk (jwk : JsonWebKey) : JsonWebKey :=
  jwk

/-- Modelled from the spec: crypto.ts verifySignature is not under
src. A symbolic signature verifies exactly when it was produced by
the holder of the given public key over exactly these fields. -/
def verifySignature (publicKey : JsonWebKey) (sig : SignatureB64)
    (text displayName : String) (clientTs : Int) (msgId : String) : Bool :=
  jwkEqual sig.signerPublicKeyJwk publicKey && sig.text == text &&
    sig.displayName == displayName && sig.clientTs == clientTs && sig.msgId == msgId

/-- From Room.tsx verifyAndCheckTrust: classify an incoming decrypted
payload against the local trust store and update the store on first
sight (TOFU). The wall-clock now is the Date.now value saveTrustedKey
would record. -/
def verifyAndCheckTrust (store : TrustStore) (now : Int)
    (payload : MessagePayload) (msgId : String) (currentRoomId : String) :
    TrustStatus × TrustStore :=
  match payload.signatureB64, payload.senderPublicKeyJwk with
  | some sig, some jwk =>
    let senderKey := importPublicKeyJwk jwk
    if !(verifySignature senderKey sig payload.text payload.displayName
        payload.clientTs msgId) then
      (.mismatch, store)
    else
      match getTrustedKey store currentRoomId payload.displayName with
      | none => (.new, saveTrustedKey store currentRoomId payload.displayName jwk now)
      | some trusted =>
        if jwkEqual trusted.publicKeyJwk jwk then (.verified, store)
        else (.mismatch, store)
  | _, _ => (.unsigned, store)

/-- A live WebSocket connection as the coordinator sees it: an
identity and its readyState (1 is OPEN). -/
structure Conn where
  id : Nat
  readyState : Nat
deriving DecidableEq

/-- From durable-object.ts: per-source rate-limit window state. -/
structure RateLimitEntry where
  count : Nat
  resetAt : Nat
deriving DecidableEq

/-- Inbound frame after JSON.parse, duck-typed: every field may be
absent. JavaScript truthiness on a string field means present and
nonempty; presence of version means typeof is number. -/
structure ClientFrame where
  type : String
  msgId : Option String
  ivB64 : Option String
  ciphertextB64 : Option String
  senderName : Option String
  keyFingerprint : Option String
  version : Option Int
deriving DecidableEq

/-- JavaScript truthiness of an optional string field. -/
def truthy : Option String → Bool
  | none => false
  | some s => !s.isEmpty

/-- The source idiom x || null: empty or absent becomes null. -/
def orNull : Option String → Option String
  | none => none
  | some s => if s.isEmpty then none else some s

/-- The source idiom x || d on strings: empty or absent falls back. -/
def strOr (a : Option String) (d : String) : String :=
  match a with
  | none => d
  | some s => if s.isEmpty then d else s

/-- Outbound broadcast frame built by the coordinator. -/
structure BroadcastFrame where
  msgId : String
  version : Int
  createdAt : String
  ivB64 : String
  ciphertextB64 : String
  senderName : Option String
deriving DecidableEq

/-- Outbound frames: error replies (code present only on frames that
carry one, as the name_taken reply does) and broadcast envelopes. -/
inductive ServerFrame where
  | errorFrame (code : Option String) (message : String)
  | messageFrame (m : BroadcastFrame)
deriving DecidableEq

/-- Row appended to the messages table of the persistence gateway.
The validation revision omits the sender_name column; its row carries
none there. -/
structure MessageRow where
  roomId : Option String
  msgId : String
  version : Int
  createdAt : String
  ivB64 : String
  ciphertextB64 : String
  senderName : Option String
deriving DecidableEq

/-- Observable actions of one handleMessage run, in program order:
a direct reply to one socket, a broadcast delivery to one socket, a
broadcast attempt that the platform rejected (swallowed by the
per-send catch of the validation revision), the persistence attempt
with its outcome, and a console.error log. -/
inductive Effect where
  | send (target : Nat) (frame : ServerFrame)
  | broadcast (target : Nat) (frame : ServerFrame)
  | broadcastFailed (target : Nat)
  | persist (row : MessageRow) (ok : Bool)
  | logError (message : String)
deriving DecidableEq

namespace RecipeRoom

/-- Coordinator state of the current RecipeRoom revision: the
name_claims table (display_name to key_fingerprint and claimed_at,
display_name is the primary key), the per-ip rate-limit map, the live
connection set and the room id. Map updates are embedded as cons with
first-binding-wins lookup. -/
structure RoomState where
  claims : List (String × String × String)
  rateLimits : List (String × RateLimitEntry)
  connections : List Conn
  roomId : Option String
deriving DecidableEq

/-- From durable-object.ts checkNameClaim: an unclaimed name is
registered to the fingerprint (first writer wins); a claimed name
passes only for the recorded fingerprint; a differing fingerprint is
refused and the owner reported, the table untouched. Returns
(ok, owner, updated claims). -/
def checkNameClaim (claims : List (String × String × String))
    (senderName keyFingerprint claimedAt : String) :
    Bool × Option String × List (String × String × String) :=
  match List.lookup senderName claims with
  | none => (true, none, (senderName, keyFingerprint, claimedAt) :: claims)
  | some (fp, _) =>
    if fp = keyFingerprint then (true, none, claims) else (false, some fp, claims)

/-- From durable-object.ts handleMessage, acceptance tail: assign
createdAt, broadcast to every connection whose readyState is OPEN
(the connections set, sender included), then attempt the D1 insert;
a failed insert is only logged. The persistence outcome is the
persistOk oracle, nowIso the server clock. -/
def acceptAndBroadcast (st : RoomState) (nowIso : String) (persistOk : Bool)
    (msgId : String) (version : Int) (ivB64 ciphertextB64 : String)
    (senderName : Option String) : RoomState × List Effect :=
  let roomId := strOr st.roomId "unknown"
  let bm : BroadcastFrame := ⟨msgId, version, nowIso, ivB64, ciphertextB64, orNull senderName⟩
  let row : MessageRow := ⟨some roomId, msgId, version, nowIso, ivB64, ciphertextB64, orNull senderName⟩
  (st, (st.connections.filter (fun c => c.readyState == 1)).map
      (fun c => Effect.broadcast c.id (.messageFrame bm)) ++
    Effect.persist row persistOk ::
      (if persistOk then [] else [Effect.logError "Failed to persist message to D1:"]))

/-- From durable-object.ts handleMessage, the pipeline after rate
limiting: type check, required-field presence, ciphertext size cap,
then the name-ownership check (only when senderName and
keyFingerprint are both truthy), then acceptance. -/
def handleMessageBody (maxMessageSize : Nat) (st : RoomState) (ws : Nat)
    (nowIso : String) (persistOk : Bool) (data : ClientFrame) :
    RoomState × List Effect :=
  if data.type ≠ "message" then
    (st, [.send ws (.errorFrame none "Invalid message type")])
  else
    match data.msgId, data.ivB64, data.ciphertextB64, data.version with
    | some msgId, some ivB64, some ciphertextB64, some version =>
      if msgId.isEmpty || ivB64.isEmpty || ciphertextB64.isEmpty then
        (st, [.send ws (.errorFrame none "Missing required fields")])
      else if ciphertextB64.length > maxMessageSize then
        (st, [.send ws (.errorFrame none "Message too large")])
      else
        match data.senderName, data.keyFingerprint with
        | some sn, some kf =>
          if sn.isEmpty || kf.isEmpty then
            acceptAndBroadcast st nowIso persistOk msgId version ivB64
              ciphertextB64 data.senderName
          else
            let claim := checkNameClaim st.claims sn kf nowIso
            if claim.1 then
              acceptAndBroadcast { st with claims := claim.2.2 } nowIso persistOk
                msgId version ivB64 ciphertextB64 data.senderName
            else
              (st, [.send ws (.errorFrame (some "name_taken")
                ("The name \"" ++ sn ++
                  "\" is already claimed by another user in this room."))])
        | _, _ =>
          acceptAndBroadcast st nowIso persistOk msgId version ivB64
            ciphertextB64 data.senderName
    | _, _, _, _ => (st, [.send ws (.errorFrame none "Missing required fields")])

/-- From durable-object.ts handleMessage, entry point: the fixed
window rate limiter runs first. An active window at or above the
ceiling rejects with an error reply; otherwise the window counter is
advanced (or a fresh window of 60000 time-units opened) and the
pipeline continues. -/
def handleMessage (maxMessagesPerMinute maxMessageSize : Nat) (st : RoomState)
    (ws : Nat) (ip : String) (now : Nat) (nowIso : String) (persistOk : Bool)
    (data : ClientFrame) : RoomState × List Effect :=
  match List.lookup ip st.rateLimits with
  | some e =>
    if now < e.resetAt then
      if e.count ≥ maxMessagesPerMinute then
        (st, [.send ws (.errorFrame none "Rate limit exceeded")])
      else
        handleMessageBody maxMessageSize
          { st with rateLimits := (ip, ⟨e.count + 1, e.resetAt⟩) :: st.rateLimits }
          ws nowIso persistOk data
    else
      handleMessageBody maxMessageSize
        { st with rateLimits := (ip, ⟨1, now + 60000⟩) :: st.rateLimits }
        ws nowIso persistOk data
  | none =>
    handleMessageBody maxMessageSize
      { st with rateLimits := (ip, ⟨1, now + 60000⟩) :: st.rateLimits }
      ws nowIso persistOk data

/-- The inbound frame is not rejected by the rate limiter: no active
window at the ceiling. -/
def rateAdmits (st : RoomState) (maxPerMinute : Nat) (ip : String) (now : Nat) :
    Prop :=
  ∀ e, List.lookup ip st.rateLimits = some e → now < e.resetAt →
    e.count < maxPerMinute

end RecipeRoom

namespace RecipeRoomV3

/-- From the validation revision of durable-object.ts: rate limiting
configuration constants. -/
def MAX_MESSAGES_PER_MINUTE : Nat := 30

/-- From the validation revision: maximum frame size in bytes. -/
def MAX_MESSAGE_SIZE : Nat := 16384

/-- From the validation revision: fixed rate window length. -/
def RATE_LIMIT_WINDOW_MS : Nat := 60000

/-- From the validation revision checkRateLimit: outside an active
window a fresh window with count 1 admits; inside one, the ceiling
rejects without advancing and anything below it advances the count. -/
def checkRateLimit (limits : List (String × RateLimitEntry)) (clientIp : String)
    (now : Nat) : Bool × List (String × RateLimitEntry) :=
  match List.lookup clientIp limits with
  | none => (true, (clientIp, ⟨1, now + RATE_LIMIT_WINDOW_MS⟩) :: limits)
  | some entry =>
    if now > entry.resetAt then
      (true, (clientIp, ⟨1, now + RATE_LIMIT_WINDOW_MS⟩) :: limits)
    else if entry.count ≥ MAX_MESSAGES_PER_MINUTE then (false, limits)
    else (true, (clientIp, ⟨entry.count + 1, entry.resetAt⟩) :: limits)

/-- Character class of the msgId pattern in the validation revision:
ASCII letters, digits, underscore and dash. -/
def isMsgIdChar (c : Char) : Bool :=
  c.isAlphanum || c == '_' || c == '-'

/-- The msgId regex of the validation revision: one or more
characters of the identifier class. -/
def msgIdPatternOk (s : String) : Bool :=
  !s.isEmpty && s.data.all isMsgIdChar

/-- Character class of the base64 check in the validation revision. -/
def isValidBase64Char (c : Char) : Bool :=
  c.isAlphanum || c == '+' || c == '/' || c == '='

/-- From the validation revision isValidBase64: empty or over 100000
characters is invalid, otherwise every character must be in the
base64 alphabet. -/
def isValidBase64 (str : String) : Bool :=
  if str.isEmpty || str.length > 100000 then false
  else str.data.all isValidBase64Char

/-- Inbound frame of the validation revision after JSON.parse. -/
structure MessageFrame where
  type : String
  msgId : Option String
  version : Option Int
  ivB64 : Option String
  ciphertextB64 : Option String
  clientTs : Option Int
deriving DecidableEq

/-- JavaScript truthiness of the numeric version field: absent or
zero is falsy. -/
def versionTruthy : Option Int → Bool
  | none => false
  | some v => v != 0

/-- One iteration of the broadcast loop of the validation revision:
the send is wrapped in its own try/catch, so a platform send failure
is swallowed and recorded, never propagated. -/
def trySend (sendOk : Nat → Bool) (frame : ServerFrame) (c : Nat) : Effect :=
  if sendOk c then Effect.broadcast c frame else Effect.broadcastFailed c

/-- From the validation revision: the broadcast loop over every live
session, each send attempted independently. -/
def broadcastLoop (sessions : List Nat) (sendOk : Nat → Bool)
    (frame : ServerFrame) : List Effect :=
  sessions.map (trySend sendOk frame)

/-- From the validation revision handleMessage: size gate on the raw
frame, rate limit, parse (a parse throw reaches the outer catch),
structural validation of type and required fields, msgId pattern and
bound, base64 well-formedness of ivB64 and ciphertextB64, then the
D1 insert (persist-first in this revision: an insert failure reaches
the outer catch and nothing is broadcast) and the broadcast loop.
The parsed argument is none when JSON.parse throws; rawSize is the
length of the raw frame, which textually contains ciphertextB64. -/
def handleMessage (limits : List (String × RateLimitEntry)) (sessions : List Nat)
    (roomId : Option String) (ws : Nat) (clientIp : String) (now : Nat)
    (nowIso : String) (persistOk : Bool) (sendOk : Nat → Bool) (rawSize : Nat)
    (parsed : Option MessageFrame) :
    List (String × RateLimitEntry) × List Effect :=
  if rawSize > MAX_MESSAGE_SIZE then
    (limits, [.send ws (.errorFrame none "Message too large")])
  else
    let rl := checkRateLimit limits clientIp now
    if !rl.1 then (rl.2, [.send ws (.errorFrame none "Rate limit exceeded")])
    else
      match parsed with
      | none =>
        (rl.2, [.logError "Message handling error:",
          .send ws (.errorFrame none "Failed to process message")])
      | some message =>
        if message.type ≠ "msg" || !truthy message.msgId ||
            !versionTruthy message.version || !truthy message.ivB64 ||
            !truthy message.ciphertextB64 then
          (rl.2, [.send ws (.errorFrame none "Invalid message format")])
        else
          match message.msgId, message.version, message.ivB64,
              message.ciphertextB64 with
          | some msgId, some version, some ivB64, some ciphertextB64 =>
            if !msgIdPatternOk msgId || msgId.length > 64 then
              (rl.2, [.send ws (.errorFrame none "Invalid message ID")])
            else if !isValidBase64 ivB64 || !isValidBase64 ciphertextB64 then
              (rl.2, [.send ws (.errorFrame none "Invalid base64 encoding")])
            else
              let row : MessageRow :=
                ⟨roomId, msgId, version, nowIso, ivB64, ciphertextB64, none⟩
              if persistOk then
                (rl.2, Effect.persist row true ::
                  broadcastLoop sessions sendOk
                    (.messageFrame ⟨msgId, version, nowIso, ivB64, ciphertextB64, none⟩))
              else
                (rl.2, [Effect.persist row false, .logError "Message handling error:",
                  .send ws (.errorFrame none "Failed to process message")])
          | _, _, _, _ =>
            (rl.2, [.send ws (.errorFrame none "Invalid message format")])

/-- Fold checkRateLimit over a sequence of arrival times of one
source, returning the admission verdicts in order and the final
rate-limit map. -/
def rlRun : List (String × RateLimitEntry) → String → List Nat →
    List Bool × List (String × RateLimitEntry)
  | limits, _, [] => ([], limits)
  | limits, ip, t :: ts =>
    let s := checkRateLimit limits ip t
    let r := rlRun s.2 ip ts
    (s.1 :: r.1, r.2)

end RecipeRoomV3

/-- The connection ids that receive a broadcast delivery in a trace. -/
def broadcastTargets (effects : List Effect) : List Nat :=
  effects.filterMap fun e =>
    match e with
    | .broadcast c _ => some c
    | _ => none

theorem jsonToJwk_jwkToJson (k : JsonWebKey) : jsonToJwk (jwkToJson k) = some k := by
  obtain ⟨kty, crv, x, y⟩ := k
  cases kty <;> cases crv <;> cases x <;> cases y <;> rfl

theorem jsonToSig_sigToJson (s : SignatureB64) : jsonToSig (sigToJson s) = some s := by
  obtain ⟨k, t, d, c, m⟩ := s
  simp [jsonToSig, sigToJson, Json.getField, List.lookup, jsonToJwk_jwkToJson]

theorem jsonToPayload_payloadToJson (p : MessagePayload) :
    jsonToPayload (payloadToJson p) = some p := by
  obtain ⟨t, d, c, sig, pk⟩ := p
  cases sig <;> cases pk <;>
    simp [jsonToPayload, payloadToJson, Json.getField, List.lookup, optField,
      jsonSubOpt, jsonToSig_sigToJson, jsonToJwk_jwkToJson]

/-- Claim C1: for every MessagePayload (text, displayName, clientTs
and optional signature fields) and every key, roomId, version and
msgId, decryptPayload applied with the same key, roomId, version and
msgId to the ivB64 and ciphertextB64 produced by encryptPayload
returns a payload equal to the original. -/
theorem encryptPayload_decryptPayload_roundTrip (key : CryptoKeyAES)
    (roomId : String) (version : Int) (msgId : String)
    (payload : MessagePayload) (iv : List Nat) :
    decryptPayload key roomId version msgId
      (encryptPayload key roomId version msgId payload iv).ivB64
      (encryptPayload key roomId version msgId payload iv).ciphertextB64 =
      .ok payload := by
  simp [decryptPayload, encryptPayload, gcmEncrypt, gcmDecrypt,
    jsonToPayload_payloadToJson]

/-- Claim C2: a ciphertext produced under a key derived from one
epoch of salt and iteration parameters never decrypts under a key
derived by deriveKeyPBKDF2 from a different epoch of salt or
iteration parameters: the result is always AuthenticationError, even
when the passphrase string used for both derivations is identical. -/
theorem decryptPayload_other_epoch_key_fails (passphrase : String)
    (saltB64 : String) (iterations : Nat) (saltB64' : String) (iterations' : Nat)
    (hdiff : saltB64' ≠ saltB64 ∨ iterations' ≠ iterations)
    (roomId : String) (version : Int) (msgId : String)
    (payload : MessagePayload) (iv : List Nat) :
    decryptPayload (deriveKeyPBKDF2 passphrase saltB64' iterations')
      roomId version msgId
      (encryptPayload (deriveKeyPBKDF2 passphrase saltB64 iterations)
        roomId version msgId payload iv).ivB64
      (encryptPayload (deriveKeyPBKDF2 passphrase saltB64 iterations)
        roomId version msgId payload iv).ciphertextB64 =
      .error CryptoError.authenticationError := by
  have hkey : deriveKeyPBKDF2 passphrase saltB64 iterations ≠
      deriveKeyPBKDF2 passphrase saltB64' iterations' := by
    intro h
    rcases hdiff with h1 | h1 <;> exact h1 (by cases h; rfl)
  simp [decryptPayload, encryptPayload, gcmEncrypt, gcmDecrypt, hkey]

/-- Witness for claim C2 at a concrete rotation: same passphrase,
salt AAAA replaced by BBBB. -/
theorem decryptPayload_other_epoch_key_fails_witness :
    decryptPayload (deriveKeyPBKDF2 "correct-horse" "BBBB" 100000)
      "kitchen" 1 "ABC123"
      (encryptPayload (deriveKeyPBKDF2 "correct-horse" "AAAA" 100000)
        "kitchen" 1 "ABC123" ⟨"hi", "bob", 1000, none, none⟩ [0, 1, 2]).ivB64
      (encryptPayload (deriveKeyPBKDF2 "correct-horse" "AAAA" 100000)
        "kitchen" 1 "ABC123" ⟨"hi", "bob", 1000, none, none⟩ [0, 1, 2]).ciphertextB64 =
      .error CryptoError.authenticationError :=
  decryptPayload_other_epoch_key_fails "correct-horse" "AAAA" 100000 "BBBB" 100000
    (Or.inl (by decide)) "kitchen" 1 "ABC123" ⟨"hi", "bob", 1000, none, none⟩ [0, 1, 2]

theorem buildAAD_roomId_injective {a b : String} (v : Int) (m : String)
    (hne : a ≠ b) : buildAAD a v m ≠ buildAAD b v m := by
  intro h
  apply hne
  have hd : a.data ++ ("|" ++ toString v ++ "|" ++ m).data =
      b.data ++ ("|" ++ toString v ++ "|" ++ m).data := by
    have h2 : (a ++ ("|" ++ toString v ++ "|" ++ m)).data =
        (b ++ ("|" ++ toString v ++ "|" ++ m)).data := by
      have : a ++ ("|" ++ toString v ++ "|" ++ m) =
          b ++ ("|" ++ toString v ++ "|" ++ m) := by
        simpa [buildAAD, String.append_assoc] using h
      rw [this]
    simpa [String.data_append] using h2
  have : a.data = b.data := List.append_cancel_right hd
  exact String.ext this

/-- Claim C3: a ciphertext produced by encryptPayload for roomId A
(any version and msgId) fails authentication when decryptPayload is
given the same key, version and msgId but a different roomId B,
because the delimiter-joined AAD recomputed at decryption differs. -/
theorem decryptPayload_cross_room_fails (key : CryptoKeyAES)
    (roomA roomB : String) (hne : roomA ≠ roomB) (version : Int)
    (msgId : String) (payload : MessagePayload) (iv : List Nat) :
    decryptPayload key roomB version msgId
      (encryptPayload key roomA version msgId payload iv).ivB64
      (encryptPayload key roomA version msgId payload iv).ciphertextB64 =
      .error CryptoError.authenticationError := by
  have haad := buildAAD_roomId_injective version msgId hne
  simp [decryptPayload, encryptPayload, gcmEncrypt, gcmDecrypt, haad]

/-- Witness for claim C3 at a concrete pair of rooms. -/
theorem decryptPayload_cross_room_fails_witness :
    decryptPayload (deriveKeyPBKDF2 "correct-horse" "AAAA" 100000)
      "pantry" 1 "ABC123"
      (encryptPayload (deriveKeyPBKDF2 "correct-horse" "AAAA" 100000)
        "kitchen" 1 "ABC123" ⟨"hi", "bob", 1000, none, none⟩ [0, 1, 2]).ivB64
      (encryptPayload (deriveKeyPBKDF2 "correct-horse" "AAAA" 100000)
        "kitchen" 1 "ABC123" ⟨"hi", "bob", 1000, none, none⟩ [0, 1, 2]).ciphertextB64 =
      .error CryptoError.authenticationError :=
  decryptPayload_cross_room_fails (deriveKeyPBKDF2 "correct-horse" "AAAA" 100000)
    "kitchen" "pantry" (by decide) 1 "ABC123" ⟨"hi", "bob", 1000, none, none⟩ [0, 1, 2]

/-- Claim C5: the trust classification returns unsigned when no
signature or public key is present; mismatch when the signature is
invalid; new when the signature is valid and no trusted key is
recorded for the (room, displayName) pair, recording the key (TOFU);
verified when the signature is valid and the recorded key equals the
sender key; mismatch when the signature is valid but the recorded key
differs; and an existing trust-table entry is never overwritten. -/
theorem verifyAndCheckTrust_classification (store : TrustStore) (now : Int)
    (payload : MessagePayload) (msgId roomId : String) :
    ((payload.signatureB64 = none ∨ payload.senderPublicKeyJwk = none) →
      verifyAndCheckTrust store now payload msgId roomId = (.unsigned, store)) ∧
    (∀ sig jwk, payload.signatureB64 = some sig →
      payload.senderPublicKeyJwk = some jwk →
      (verifySignature (importPublicKeyJwk jwk) sig payload.text
          payload.displayName payload.clientTs msgId = false →
        verifyAndCheckTrust store now payload msgId roomId = (.mismatch, store)) ∧
      (verifySignature (importPublicKeyJwk jwk) sig payload.text
          payload.displayName payload.clientTs msgId = true →
        (getTrustedKey store roomId payload.displayName = none →
          verifyAndCheckTrust store now payload msgId roomId =
            (.new, saveTrustedKey store roomId payload.displayName jwk now)) ∧
        (∀ tk, getTrustedKey store roomId payload.displayName = some tk →
          (jwkEqual tk.publicKeyJwk jwk = true →
            verifyAndCheckTrust store now payload msgId roomId = (.verified, store)) ∧
          (jwkEqual tk.publicKeyJwk jwk = false →
            verifyAndCheckTrust store now payload msgId roomId =
              (.mismatch, store))))) ∧
    (∀ r n tk, getTrustedKey store r n = some tk →
      getTrustedKey (verifyAndCheckTrust store now payload msgId roomId).2 r n =
        some tk) := by
  refine ⟨?_, ?_, ?_⟩
  · rintro (h | h) <;>
      · cases hs : payload.signatureB64 <;> cases hp : payload.senderPublicKeyJwk <;>
          simp_all [verifyAndCheckTrust]
  · intro sig jwk hs hp
    refine ⟨fun hv => ?_, fun hv => ⟨fun ht => ?_, fun tk ht => ⟨fun hj => ?_, fun hj => ?_⟩⟩⟩
    · simp [verifyAndCheckTrust, hs, hp, hv]
    · simp [verifyAndCheckTrust, hs, hp, hv, ht]
    · simp [verifyAndCheckTrust, hs, hp, hv, ht, hj]
    · simp [verifyAndCheckTrust, hs, hp, hv, ht, hj]
  · intro r n tk ht
    cases hs : payload.signatureB64 with
    | none => simpa [verifyAndCheckTrust, hs] using ht
    | some sig =>
      cases hp : payload.senderPublicKeyJwk with
      | none => simpa [verifyAndCheckTrust, hs, hp] using ht
      | some jwk =>
        by_cases hv : verifySignature (importPublicKeyJwk jwk) sig payload.text
            payload.displayName payload.clientTs msgId = true
        · cases hl : getTrustedKey store roomId payload.displayName with
          | none =>
            have hr : verifyAndCheckTrust store now payload msgId roomId =
                (.new, saveTrustedKey store roomId payload.displayName jwk now) := by
              simp [verifyAndCheckTrust, hs, hp, hv, hl]
            rw [hr]
            by_cases hk : trustKeyId r n = trustKeyId roomId payload.displayName
            · have h1 : List.lookup (trustKeyId roomId payload.displayName) store =
                  some tk := by
                have := ht
                rw [getTrustedKey, hk] at this
                exact this
              rw [getTrustedKey] at hl
              simp [h1] at hl
            · simpa [getTrustedKey, saveTrustedKey, List.lookup,
                beq_eq_false_iff_ne.mpr hk] using ht
          | some tk' =>
            by_cases hj : jwkEqual tk'.publicKeyJwk jwk = true
            · have hr : verifyAndCheckTrust store now payload msgId roomId =
                  (.verified, store) := by
                simp [verifyAndCheckTrust, hs, hp, hv, hl, hj]
              rw [hr]
              exact ht
            · have hr : verifyAndCheckTrust store now payload msgId roomId =
                  (.mismatch, store) := by
                simp [verifyAndCheckTrust, hs, hp, hv, hl,
                  Bool.eq_false_iff.mpr hj]
              rw [hr]
              exact ht
        · have hr : verifyAndCheckTrust store now payload msgId roomId =
              (.mismatch, store) := by
            simp [verifyAndCheckTrust, hs, hp, Bool.eq_false_iff.mpr hv]
          rw [hr]
          exact ht

namespace RecipeRoom

theorem handleMessage_admitted (mm ms : Nat) (st : RoomState) (ws : Nat)
    (ip : String) (now : Nat) (nowIso : String) (data : ClientFrame)
    (hallow : rateAdmits st mm ip now) :
    ∃ rl', ∀ persistOk, handleMessage mm ms st ws ip now nowIso persistOk data =
      handleMessageBody ms { st with rateLimits := rl' } ws nowIso persistOk data := by
  cases hl : List.lookup ip st.rateLimits with
  | none =>
    exact ⟨(ip, ⟨1, now + 60000⟩) :: st.rateLimits, fun p => by
      simp [handleMessage, hl]⟩
  | some e =>
    by_cases hn : now < e.resetAt
    · have hc : e.count < mm := hallow e hl hn
      exact ⟨(ip, ⟨e.count + 1, e.resetAt⟩) :: st.rateLimits, fun p => by
        simp [handleMessage, hl, hn, Nat.not_le.mpr hc]⟩
    · exact ⟨(ip, ⟨1, now + 60000⟩) :: st.rateLimits, fun p => by
        simp [handleMessage, hl, hn]⟩

theorem handleMessageBody_accepted (ms : Nat) (st : RoomState) (ws : Nat)
    (nowIso : String) (data : ClientFrame) (msgId ivB64 ciphertextB64 : String)
    (version : Int) (htype : data.type = "message")
    (hmsg : data.msgId = some msgId) (hmne : msgId.isEmpty = false)
    (hiv : data.ivB64 = some ivB64) (hivne : ivB64.isEmpty = false)
    (hct : data.ciphertextB64 = some ciphertextB64)
    (hctne : ciphertextB64.isEmpty = false) (hver : data.version = some version)
    (hsize : ¬ciphertextB64.length > ms)
    (hname : ∀ sn kf, data.senderName = some sn → data.keyFingerprint = some kf →
      sn.isEmpty = false → kf.isEmpty = false →
      (checkNameClaim st.claims sn kf nowIso).1 = true) :
    ∃ st', (∀ persistOk, handleMessageBody ms st ws nowIso persistOk data =
        acceptAndBroadcast st' nowIso persistOk msgId version ivB64 ciphertextB64
          data.senderName) ∧
      st'.connections = st.connections ∧ st'.roomId = st.roomId ∧
      st'.rateLimits = st.rateLimits := by
  cases hsn : data.senderName with
  | none =>
    exact ⟨st, fun p => by
      simp [handleMessageBody, htype, hmsg, hiv, hct, hver, hmne, hivne, hctne,
        hsize, hsn], rfl, rfl, rfl⟩
  | some sn =>
    cases hkf : data.keyFingerprint with
    | none =>
      exact ⟨st, fun p => by
        simp [handleMessageBody, htype, hmsg, hiv, hct, hver, hmne, hivne, hctne,
          hsize, hsn, hkf], rfl, rfl, rfl⟩
    | some kf =>
      by_cases hse : sn.isEmpty
      · exact ⟨st, fun p => by
          simp [handleMessageBody, htype, hmsg, hiv, hct, hver, hmne, hivne, hctne,
            hsize, hsn, hkf, hse], rfl, rfl, rfl⟩
      · by_cases hke : kf.isEmpty
        · exact ⟨st, fun p => by
            simp [handleMessageBody, htype, hmsg, hiv, hct, hver, hmne, hivne,
              hctne, hsize, hsn, hkf, hse, hke], rfl, rfl, rfl⟩
        · have hok := hname sn kf hsn hkf (by simpa using hse) (by simpa using hke)
          exact ⟨{ st with claims := (checkNameClaim st.claims sn kf nowIso).2.2 },
            fun p => by
              simp [handleMessageBody, htype, hmsg, hiv, hct, hver, hmne, hivne,
                hctne, hsize, hsn, hkf, hse, hke, hok], rfl, rfl, rfl⟩

/-- Claim C8: for every accepted message a failure of the persistence
append is handled locally: the trace is the broadcasts, then the
persistence attempt, then at most a log entry; the sender receives no
error frame for it, the broadcasts are identical whether persistence
succeeds or fails (nothing is retracted), and every broadcast effect
precedes the persistence attempt. -/
theorem handleMessage_persist_failure_logged_only (mm ms : Nat) (st : RoomState)
    (ws : Nat) (ip : String) (now : Nat) (nowIso : String) (data : ClientFrame)
    (msgId ivB64 ciphertextB64 : String) (version : Int)
    (hallow : rateAdmits st mm ip now) (htype : data.type = "message")
    (hmsg : data.msgId = some msgId) (hmne : msgId.isEmpty = false)
    (hiv : data.ivB64 = some ivB64) (hivne : ivB64.isEmpty = false)
    (hct : data.ciphertextB64 = some ciphertextB64)
    (hctne : ciphertextB64.isEmpty = false) (hver : data.version = some version)
    (hsize : ¬ciphertextB64.length > ms)
    (hname : ∀ sn kf, data.senderName = some sn → data.keyFingerprint = some kf →
      sn.isEmpty = false → kf.isEmpty = false →
      (checkNameClaim st.claims sn kf nowIso).1 = true) :
    ∃ st' bcasts row,
      (∀ persistOk, handleMessage mm ms st ws ip now nowIso persistOk data =
        (st', bcasts ++ Effect.persist row persistOk ::
          (if persistOk then [] else
            [Effect.logError "Failed to persist message to D1:"]))) ∧
      (∀ e ∈ bcasts, ∃ c f, e = Effect.broadcast c f) := by
  obtain ⟨rl', hrl⟩ := handleMessage_admitted mm ms st ws ip now nowIso data hallow
  obtain ⟨st', hacc, hconn, hroom, hrate⟩ :=
    handleMessageBody_accepted ms { st with rateLimits := rl' } ws nowIso data
      msgId ivB64 ciphertextB64 version htype hmsg hmne hiv hivne hct hctne hver
      hsize hname
  refine ⟨st',
    (st'.connections.filter (fun c => c.readyState == 1)).map
      (fun c => Effect.broadcast c.id (.messageFrame
        ⟨msgId, version, nowIso, ivB64, ciphertextB64, orNull data.senderName⟩)),
    ⟨some (strOr st'.roomId "unknown"), msgId, version, nowIso, ivB64,
      ciphertextB64, orNull data.senderName⟩, ?_, ?_⟩
  · intro p
    rw [hrl p, hacc p]
    rfl
  · intro e he
    simp only [List.mem_map] at he
    obtain ⟨c, _, rfl⟩ := he
    exact ⟨c.id, _, rfl⟩

/-- Witness for claim C8 at a concrete accepted message. -/
theorem handleMessage_persist_failure_logged_only_witness :
    ∃ st' bcasts row,
      (∀ persistOk, handleMessage 30 16384
          ⟨[], [], [⟨1, 1⟩, ⟨2, 1⟩], some "kitchen"⟩ 1 "ip" 0 "T0" persistOk
          ⟨"message", some "M1", some "IV", some "CT", some "bob", some "F1", some 1⟩ =
        (st', bcasts ++ Effect.persist row persistOk ::
          (if persistOk then [] else
            [Effect.logError "Failed to persist message to D1:"]))) ∧
      (∀ e ∈ bcasts, ∃ c f, e = Effect.broadcast c f) :=
  handleMessage_persist_failure_logged_only 30 16384
    ⟨[], [], [⟨1, 1⟩, ⟨2, 1⟩], some "kitchen"⟩ 1 "ip" 0 "T0"
    ⟨"message", some "M1", some "IV", some "CT", some "bob", some "F1", some 1⟩
    "M1" "IV" "CT" 1
    (by intro e he; simp [List.lookup] at he) rfl rfl (by decide) rfl (by decide)
    rfl (by decide) rfl (by decide)
    (by intro sn kf hsn hkf h3 h4; cases hsn; cases hkf; rfl)

/-- Claim C4 as stated is refuted at a concrete input: a message
claiming the name bob with fingerprint F2 while the claims table
binds bob to F1 is rejected, but the error reply carries the code
name_taken, not the code name-taken stated by the claim. -/
theorem handleMessage_nameTaken_code_counterexample :
    (handleMessage 30 16384 ⟨[("bob", "F1", "T")], [], [⟨1, 1⟩], some "kitchen"⟩
        1 "ip" 0 "T0" true
        ⟨"message", some "M1", some "IV", some "CT", some "bob", some "F2", some 1⟩).2 =
      [Effect.send 1 (ServerFrame.errorFrame (some "name_taken")
        "The name \"bob\" is already claimed by another user in this room.")] ∧
    "name_taken" ≠ "name-taken" := by
  constructor
  · rfl
  · decide

/-- Claim C4 amended: for every room and display name with no
existing NameClaim, the first message carrying that senderName and a
keyFingerprint creates the claim bound to that fingerprint and is
accepted; every later message with the same name and the same
fingerprint is accepted; every later message with the same name and a
different fingerprint is rejected with error code name_taken (the
source uses an underscore where the claim stated name-taken) and the
existing claim fingerprint is never overwritten. -/
theorem handleMessage_nameClaim_firstWriterWins (mm ms : Nat) (st : RoomState)
    (ws : Nat) (ip : String) (now : Nat) (nowIso : String) (persistOk : Bool)
    (data : ClientFrame) (msgId ivB64 ciphertextB64 : String) (version : Int)
    (sn kf : String) (hallow : rateAdmits st mm ip now)
    (htype : data.type = "message") (hmsg : data.msgId = some msgId)
    (hmne : msgId.isEmpty = false) (hiv : data.ivB64 = some ivB64)
    (hivne : ivB64.isEmpty = false) (hct : data.ciphertextB64 = some ciphertextB64)
    (hctne : ciphertextB64.isEmpty = false) (hver : data.version = some version)
    (hsize : ¬ciphertextB64.length > ms) (hsn : data.senderName = some sn)
    (hsne : sn.isEmpty = false) (hkf : data.keyFingerprint = some kf)
    (hkfe : kf.isEmpty = false) :
    (List.lookup sn st.claims = none →
      ∃ rl', handleMessage mm ms st ws ip now nowIso persistOk data =
        acceptAndBroadcast
          { st with claims := (sn, kf, nowIso) :: st.claims, rateLimits := rl' }
          nowIso persistOk msgId version ivB64 ciphertextB64 data.senderName) ∧
    (∀ t, List.lookup sn st.claims = some (kf, t) →
      ∃ rl', handleMessage mm ms st ws ip now nowIso persistOk data =
        acceptAndBroadcast { st with rateLimits := rl' }
          nowIso persistOk msgId version ivB64 ciphertextB64 data.senderName) ∧
    (∀ fp t, List.lookup sn st.claims = some (fp, t) → fp ≠ kf →
      ∃ rl', handleMessage mm ms st ws ip now nowIso persistOk data =
        ({ st with rateLimits := rl' },
          [Effect.send ws (.errorFrame (some "name_taken")
            ("The name \"" ++ sn ++
              "\" is already claimed by another user in this room."))])) := by
  obtain ⟨rl', hrl⟩ := handleMessage_admitted mm ms st ws ip now nowIso data hallow
  refine ⟨fun hl => ⟨rl', ?_⟩, fun t hl => ⟨rl', ?_⟩, fun fp t hl hne => ⟨rl', ?_⟩⟩
  · rw [hrl persistOk]
    simp [handleMessageBody, htype, hmsg, hiv, hct, hver, hmne, hivne, hctne,
      hsize, hsn, hkf, hsne, hkfe, checkNameClaim, hl]
  · rw [hrl persistOk]
    simp [handleMessageBody, htype, hmsg, hiv, hct, hver, hmne, hivne, hctne,
      hsize, hsn, hkf, hsne, hkfe, checkNameClaim, hl]
  · rw [hrl persistOk]
    simp [handleMessageBody, htype, hmsg, hiv, hct, hver, hmne, hivne, hctne,
      hsize, hsn, hkf, hsne, hkfe, checkNameClaim, hl, hne]

/-- Witness for the amended claim C4: first claim of an unclaimed
name at a concrete input. -/
theorem handleMessage_nameClaim_firstWriterWins_witness :
    ∃ rl', handleMessage 30 16384 ⟨[], [], [⟨1, 1⟩], some "kitchen"⟩ 1 "ip" 0
        "T0" true
        ⟨"message", some "M1", some "IV", some "CT", some "bob", some "F1", some 1⟩ =
      acceptAndBroadcast
        ⟨[("bob", "F1", "T0")], rl', [⟨1, 1⟩], some "kitchen"⟩
        "T0" true "M1" 1 "IV" "CT" (some "bob") :=
  (handleMessage_nameClaim_firstWriterWins 30 16384
    ⟨[], [], [⟨1, 1⟩], some "kitchen"⟩ 1 "ip" 0 "T0" true
    ⟨"message", some "M1", some "IV", some "CT", some "bob", some "F1", some 1⟩
    "M1" "IV" "CT" 1 "bob" "F1"
    (by intro e he; simp [List.lookup] at he) rfl rfl (by decide) rfl (by decide)
    rfl (by decide) rfl (by decide) rfl (by decide) rfl (by decide)).1 rfl

/-- Claim C10: an inbound message that passes structural validation
and carries a senderName but no keyFingerprint triggers no
name-ownership lookup: it is accepted and broadcast under that
senderName even when the claims table already binds the name to some
other fingerprint, and the claims table is untouched. -/
theorem handleMessage_noFingerprint_skips_nameCheck (mm ms : Nat)
    (st : RoomState) (ws : Nat) (ip : String) (now : Nat) (nowIso : String)
    (persistOk : Bool) (data : ClientFrame)
    (msgId ivB64 ciphertextB64 : String) (version : Int) (sn fpOther t : String)
    (hallow : rateAdmits st mm ip now) (htype : data.type = "message")
    (hmsg : data.msgId = some msgId) (hmne : msgId.isEmpty = false)
    (hiv : data.ivB64 = some ivB64) (hivne : ivB64.isEmpty = false)
    (hct : data.ciphertextB64 = some ciphertextB64)
    (hctne : ciphertextB64.isEmpty = false) (hver : data.version = some version)
    (hsize : ¬ciphertextB64.length > ms) (hsn : data.senderName = some sn)
    (hsne : sn.isEmpty = false) (hkf : data.keyFingerprint = none)
    (hclaim : List.lookup sn st.claims = some (fpOther, t)) :
    ∃ rl', handleMessage mm ms st ws ip now nowIso persistOk data =
        acceptAndBroadcast { st with rateLimits := rl' } nowIso persistOk msgId
          version ivB64 ciphertextB64 (some sn) ∧
      (handleMessage mm ms st ws ip now nowIso persistOk data).1.claims =
        st.claims := by
  obtain ⟨rl', hrl⟩ := handleMessage_admitted mm ms st ws ip now nowIso data hallow
  refine ⟨rl', ?_, ?_⟩
  · rw [hrl persistOk]
    simp [handleMessageBody, htype, hmsg, hiv, hct, hver, hmne, hivne, hctne,
      hsize, hsn, hkf]
  · rw [hrl persistOk]
    simp [handleMessageBody, htype, hmsg, hiv, hct, hver, hmne, hivne, hctne,
      hsize, hsn, hkf, acceptAndBroadcast]

/-- Witness for claim C10: the name bob is claimed by F1, yet a
message naming bob with no fingerprint is accepted and broadcast. -/
theorem handleMessage_noFingerprint_skips_nameCheck_witness :
    ∃ rl', handleMessage 30 16384 ⟨[("bob", "F1", "T")], [], [⟨1, 1⟩], some "kitchen"⟩
          1 "ip" 0 "T0" true
          ⟨"message", some "M1", some "IV", some "CT", some "bob", none, some 1⟩ =
        acceptAndBroadcast ⟨[("bob", "F1", "T")], rl', [⟨1, 1⟩], some "kitchen"⟩
          "T0" true "M1" 1 "IV" "CT" (some "bob") ∧
      (handleMessage 30 16384 ⟨[("bob", "F1", "T")], [], [⟨1, 1⟩], some "kitchen"⟩
          1 "ip" 0 "T0" true
          ⟨"message", some "M1", some "IV", some "CT", some "bob", none, some 1⟩).1.claims =
        [("bob", "F1", "T")] :=
  handleMessage_noFingerprint_skips_nameCheck 30 16384
    ⟨[("bob", "F1", "T")], [], [⟨1, 1⟩], some "kitchen"⟩ 1 "ip" 0 "T0" true
    ⟨"message", some "M1", some "IV", some "CT", some "bob", none, some 1⟩
    "M1" "IV" "CT" 1 "bob" "F1" "T"
    (by intro e he; simp [List.lookup] at he) rfl rfl (by decide) rfl (by decide)
    rfl (by decide) rfl (by decide) rfl (by decide) rfl rfl

end RecipeRoom

namespace RecipeRoomV3

theorem rlRun_append (limits : List (String × RateLimitEntry)) (ip : String)
    (l1 l2 : List Nat) :
    rlRun limits ip (l1 ++ l2) =
      ((rlRun limits ip l1).1 ++ (rlRun (rlRun limits ip l1).2 ip l2).1,
        (rlRun (rlRun limits ip l1).2 ip l2).2) := by
  induction l1 generalizing limits with
  | nil => simp [rlRun]
  | cons t ts ih => simp [rlRun, ih]

theorem rlRun_active_window (ip : String) (c r : Nat)
    (limits : List (String × RateLimitEntry)) (ts : List Nat)
    (hl : List.lookup ip limits = some ⟨c, r⟩) (hts : ∀ t ∈ ts, t ≤ r)
    (hc : c + ts.length ≤ MAX_MESSAGES_PER_MINUTE) :
    (rlRun limits ip ts).1 = List.replicate ts.length true ∧
      List.lookup ip (rlRun limits ip ts).2 = some ⟨c + ts.length, r⟩ := by
  induction ts generalizing limits c with
  | nil => simpa [rlRun] using hl
  | cons t ts ih =>
    have hmax : MAX_MESSAGES_PER_MINUTE = 30 := rfl
    have ht : t ≤ r := hts t (by simp)
    have hng : ¬t > r := by omega
    have hclt : ¬c ≥ MAX_MESSAGES_PER_MINUTE := by
      rw [hmax]
      simp only [List.length_cons, hmax] at hc
      omega
    have hstep : checkRateLimit limits ip t =
        (true, (ip, ⟨c + 1, r⟩) :: limits) := by
      simp [checkRateLimit, hl, hng, hclt]
    have hlook : List.lookup ip ((ip, (⟨c + 1, r⟩ : RateLimitEntry)) :: limits) =
        some ⟨c + 1, r⟩ := by
      simp [List.lookup]
    have hrec := ih (c + 1) ((ip, ⟨c + 1, r⟩) :: limits) hlook
      (fun u hu => hts u (by simp [hu]))
      (by simp only [List.length_cons] at hc; omega)
    refine ⟨?_, ?_⟩
    · simp [rlRun, hstep, hrec.1, List.replicate_succ]
    · simp only [rlRun, hstep]
      rw [hrec.2]
      have : c + 1 + ts.length = c + (ts.length + 1) := by omega
      simp [this]

theorem rlRun_cons (limits : List (String × RateLimitEntry)) (ip : String)
    (t : Nat) (ts : List Nat) :
    rlRun limits ip (t :: ts) =
      ((checkRateLimit limits ip t).1 ::
          (rlRun (checkRateLimit limits ip t).2 ip ts).1,
        (rlRun (checkRateLimit limits ip t).2 ip ts).2) :=
  rfl

/-- Claim C6: from an empty window state, with the window of 60000
time-units and the ceiling of 30, the first thirty arrivals of one
source inside one window are each admitted, the thirty-first inside
the window is rejected (and the full validation-revision handler
replies with the rate-limit error frame), and the first arrival after
the window has elapsed starts a new window with count 1 and is
admitted. -/
theorem checkRateLimit_window_ceiling (ip : String) (t0 : Nat) (ts : List Nat)
    (t30 t' : Nat) (hlen : ts.length = 29)
    (hts : ∀ t ∈ ts, t ≤ t0 + RATE_LIMIT_WINDOW_MS)
    (h30 : t30 ≤ t0 + RATE_LIMIT_WINDOW_MS)
    (h' : t' > t0 + RATE_LIMIT_WINDOW_MS) :
    (rlRun [] ip (t0 :: ts ++ [t30])).1 = List.replicate 30 true ++ [false] ∧
      (rlRun [] ip ((t0 :: ts ++ [t30]) ++ [t'])).1 =
        (List.replicate 30 true ++ [false]) ++ [true] ∧
      List.lookup ip (rlRun [] ip ((t0 :: ts ++ [t30]) ++ [t'])).2 =
        some ⟨1, t' + RATE_LIMIT_WINDOW_MS⟩ ∧
      (∀ sessions roomId ws nowIso persistOk sendOk rawSize parsed,
        ¬rawSize > MAX_MESSAGE_SIZE →
        handleMessage (rlRun [] ip (t0 :: ts ++ [t30])).2 sessions roomId ws ip
            t30 nowIso persistOk sendOk rawSize parsed =
          ((rlRun [] ip (t0 :: ts ++ [t30])).2,
            [Effect.send ws (.errorFrame none "Rate limit exceeded")])) := by
  have hstep0 : checkRateLimit [] ip t0 =
      (true, [(ip, ⟨1, t0 + RATE_LIMIT_WINDOW_MS⟩)]) := by
    simp [checkRateLimit, List.lookup]
  have hlook0 : List.lookup ip
      [(ip, (⟨1, t0 + RATE_LIMIT_WINDOW_MS⟩ : RateLimitEntry))] =
      some ⟨1, t0 + RATE_LIMIT_WINDOW_MS⟩ := by
    simp [List.lookup]
  have hmid := rlRun_active_window ip 1 (t0 + RATE_LIMIT_WINDOW_MS)
    [(ip, ⟨1, t0 + RATE_LIMIT_WINDOW_MS⟩)] ts hlook0 hts
    (by rw [hlen]; decide)
  have hrun30a : (rlRun [] ip (t0 :: ts)).1 = List.replicate 30 true := by
    simp only [rlRun_cons, hstep0]
    rw [hmid.1, hlen]
    decide
  have hrun30b : List.lookup ip (rlRun [] ip (t0 :: ts)).2 =
      some ⟨30, t0 + RATE_LIMIT_WINDOW_MS⟩ := by
    simp only [rlRun_cons, hstep0]
    rw [hmid.2, hlen]
  have hng30 : ¬t30 > t0 + RATE_LIMIT_WINDOW_MS := by omega
  have hstep30 : checkRateLimit (rlRun [] ip (t0 :: ts)).2 ip t30 =
      (false, (rlRun [] ip (t0 :: ts)).2) := by
    simp [checkRateLimit, hrun30b, hng30, MAX_MESSAGES_PER_MINUTE]
  have hone : rlRun (rlRun [] ip (t0 :: ts)).2 ip [t30] =
      ([false], (rlRun [] ip (t0 :: ts)).2) := by
    rw [rlRun_cons, hstep30]
    rfl
  have hsplit1 : t0 :: ts ++ [t30] = (t0 :: ts) ++ [t30] := by simp
  have hrun31 : rlRun [] ip (t0 :: ts ++ [t30]) =
      ((rlRun [] ip (t0 :: ts)).1 ++ [false], (rlRun [] ip (t0 :: ts)).2) := by
    rw [hsplit1, rlRun_append, hone]
  have hstepafter : checkRateLimit (rlRun [] ip (t0 :: ts)).2 ip t' =
      (true, (ip, ⟨1, t' + RATE_LIMIT_WINDOW_MS⟩) :: (rlRun [] ip (t0 :: ts)).2) := by
    simp [checkRateLimit, hrun30b, h']
  have htwo : rlRun (rlRun [] ip (t0 :: ts)).2 ip [t'] =
      ([true], (ip, ⟨1, t' + RATE_LIMIT_WINDOW_MS⟩) :: (rlRun [] ip (t0 :: ts)).2) := by
    rw [rlRun_cons, hstepafter]
    rfl
  refine ⟨?_, ?_, ?_, ?_⟩
  · rw [hrun31, hrun30a]
  · rw [rlRun_append, hrun31]
    simp only [htwo, hrun30a]
  · rw [rlRun_append, hrun31]
    simp only [htwo]
    simp [List.lookup]
  · intro sessions roomId ws nowIso persistOk sendOk rawSize parsed hraw
    rw [hrun31]
    simp [handleMessage, hraw, hstep30]

/-- Witness for claim C6: thirty-one arrivals at time 0 followed by
one at time 60001. -/
theorem checkRateLimit_window_ceiling_witness :
    (rlRun [] "a" (0 :: List.replicate 29 0 ++ [0])).1 =
        List.replicate 30 true ++ [false] ∧
      (rlRun [] "a" ((0 :: List.replicate 29 0 ++ [0]) ++ [60001])).1 =
        (List.replicate 30 true ++ [false]) ++ [true] ∧
      List.lookup "a" (rlRun [] "a" ((0 :: List.replicate 29 0 ++ [0]) ++ [60001])).2 =
        some ⟨1, 60001 + RATE_LIMIT_WINDOW_MS⟩ :=
  ⟨(checkRateLimit_window_ceiling "a" 0 (List.replicate 29 0) 0 60001
      (by decide) (by decide) (by decide) (by decide)).1,
    (checkRateLimit_window_ceiling "a" 0 (List.replicate 29 0) 0 60001
      (by decide) (by decide) (by decide) (by decide)).2.1,
    (checkRateLimit_window_ceiling "a" 0 (List.replicate 29 0) 0 60001
      (by decide) (by decide) (by decide) (by decide)).2.2.1⟩

end RecipeRoomV3

/-- Claim C9: an inbound submission frame failing structural
validation is rejected with an error reply to the sender and nothing
else: in the validation revision, whenever a required field is
missing or falsy, the msgId is outside the bounded-length identifier
charset, ivB64 or ciphertextB64 is not well-formed base64, or the
ciphertext size exceeds the configured cap, the handler emits exactly
one error send and neither broadcasts nor persists; and in the
current revision, a missing required field or an oversized ciphertext
is likewise answered with a single error reply before the
name-ownership check, leaving the state (so the claims table)
untouched. -/
theorem structuralValidation_rejects_before_pipeline
    (limits : List (String × RateLimitEntry)) (sessions : List Nat)
    (roomId : Option String) (ws : Nat) (clientIp : String) (now : Nat)
    (nowIso : String) (persistOk : Bool) (sendOk : Nat → Bool) (rawSize : Nat)
    (f : RecipeRoomV3.MessageFrame)
    (hrate : (RecipeRoomV3.checkRateLimit limits clientIp now).1 = true)
    (hraw : ∀ ct, f.ciphertextB64 = some ct → ct.length ≤ rawSize)
    (hviol :
      (f.type ≠ "msg" ∨ truthy f.msgId = false ∨
        RecipeRoomV3.versionTruthy f.version = false ∨
        truthy f.ivB64 = false ∨ truthy f.ciphertextB64 = false) ∨
      (∃ m, f.msgId = some m ∧
        (RecipeRoomV3.msgIdPatternOk m = false ∨ m.length > 64)) ∨
      (∃ s, (f.ivB64 = some s ∨ f.ciphertextB64 = some s) ∧
        RecipeRoomV3.isValidBase64 s = false) ∨
      (∃ ct, f.ciphertextB64 = some ct ∧
        ct.length > RecipeRoomV3.MAX_MESSAGE_SIZE)) :
    (∃ limits' emsg,
      RecipeRoomV3.handleMessage limits sessions roomId ws clientIp now nowIso
          persistOk sendOk rawSize (some f) =
        (limits', [Effect.send ws (.errorFrame none emsg)])) ∧
    (∀ ms (st : RecipeRoom.RoomState) ws2 iso p (data : ClientFrame),
      data.type = "message" →
      ((truthy data.msgId = false ∨ truthy data.ivB64 = false ∨
        truthy data.ciphertextB64 = false ∨ data.version = none) ∨
        (∃ ct, data.ciphertextB64 = some ct ∧ ct.length > ms)) →
      ∃ emsg, RecipeRoom.handleMessageBody ms st ws2 iso p data =
        (st, [Effect.send ws2 (.errorFrame none emsg)])) := by
  constructor
  · unfold RecipeRoomV3.handleMessage
    split
    · exact ⟨limits, "Message too large", rfl⟩
    · rename_i hsz
      simp only [hrate, Bool.not_true, Bool.false_eq_true, if_false]
      split
      · exact ⟨_, "Invalid message format", rfl⟩
      · rename_i hguard
        split
        · rename_i m version ivB64 ciphertextB64 hm hv hi hc
          split
          · exact ⟨_, "Invalid message ID", rfl⟩
          · split
            · exact ⟨_, "Invalid base64 encoding", rfl⟩
            · exfalso
              rename_i hid hb64
              rcases hviol with h | ⟨m', hm', h⟩ | ⟨s, hs, h⟩ | ⟨ct, hct, h⟩
              · simp_all [truthy, RecipeRoomV3.versionTruthy]
              · rw [hm] at hm'
                cases hm'
                simp_all
              · rcases hs with hs | hs
                · rw [hi] at hs
                  cases hs
                  simp_all
                · rw [hc] at hs
                  cases hs
                  simp_all
              · rw [hc] at hct
                cases hct
                have := hraw ciphertextB64 hc
                simp only [RecipeRoomV3.MAX_MESSAGE_SIZE] at h hsz
                omega
        · exact ⟨_, "Invalid message format", rfl⟩
  · intro ms st ws2 iso p data htype hviolB
    unfold RecipeRoom.handleMessageBody
    rw [if_neg (by simp [htype])]
    split
    · rename_i msgId ivB64 ciphertextB64 version hm hi hc hv
      split
      · exact ⟨"Missing required fields", rfl⟩
      · split
        · exact ⟨"Message too large", rfl⟩
        · exfalso
          rename_i hempty hsize
          rcases hviolB with (h | h | h | h) | ⟨ct, hct, h⟩
          · rw [hm] at h
            simp_all [truthy]
          · rw [hi] at h
            simp_all [truthy]
          · rw [hc] at h
            simp_all [truthy]
          · rw [hv] at h
            cases h
          · rw [hc] at hct
            cases hct
            omega
    · exact ⟨"Missing required fields", rfl⟩

/-- Witness for claim C9: a frame whose msgId contains characters
outside the identifier charset is answered with a single error
reply. -/
theorem structuralValidation_rejects_before_pipeline_witness :
    ∃ limits' emsg,
      RecipeRoomV3.handleMessage [] [] none 7 "a" 0 "T0" true (fun _ => true) 100
          (some ⟨"msg", some "bad id!", some 1, some "QUJD", some "QUJD", some 0⟩) =
        (limits', [Effect.send 7 (.errorFrame none emsg)]) :=
  (structuralValidation_rejects_before_pipeline [] [] none 7 "a" 0 "T0" true
    (fun _ => true) 100 ⟨"msg", some "bad id!", some 1, some "QUJD", some "QUJD", some 0⟩
    (by decide)
    (by intro ct hct; cases hct; decide)
    (Or.inr (Or.inl ⟨"bad id!", rfl, Or.inl (by decide)⟩))).1

theorem broadcastTargets_append (l1 l2 : List Effect) :
    broadcastTargets (l1 ++ l2) = broadcastTargets l1 ++ broadcastTargets l2 := by
  simp [broadcastTargets]

theorem broadcastTargets_map_broadcast (l : List Conn) (fr : ServerFrame) :
    broadcastTargets (l.map fun c => Effect.broadcast c.id fr) = l.map Conn.id := by
  induction l with
  | nil => rfl
  | cons a t ih => simpa [broadcastTargets, List.filterMap_cons] using ih

/-- Claim C7 amended: for every accepted message the coordinator
assigns createdAt and broadcasts the envelope to every live
connection whose readyState is OPEN, the sender included (the source
iterates the whole connections set and does not exclude the
submitting socket); and in the validation revision, whose broadcast
loop wraps each send in its own catch, a send failure to one peer
does not prevent the delivery attempt to any other peer. -/
theorem handleMessage_broadcast_to_open_connections (mm ms : Nat)
    (st : RecipeRoom.RoomState) (ws : Nat) (ip : String) (now : Nat)
    (nowIso : String) (data : ClientFrame)
    (msgId ivB64 ciphertextB64 : String) (version : Int)
    (hallow : RecipeRoom.rateAdmits st mm ip now) (htype : data.type = "message")
    (hmsg : data.msgId = some msgId) (hmne : msgId.isEmpty = false)
    (hiv : data.ivB64 = some ivB64) (hivne : ivB64.isEmpty = false)
    (hct : data.ciphertextB64 = some ciphertextB64)
    (hctne : ciphertextB64.isEmpty = false) (hver : data.version = some version)
    (hsize : ¬ciphertextB64.length > ms)
    (hname : ∀ sn kf, data.senderName = some sn → data.keyFingerprint = some kf →
      sn.isEmpty = false → kf.isEmpty = false →
      (RecipeRoom.checkNameClaim st.claims sn kf nowIso).1 = true) :
    (∀ p, broadcastTargets
        (RecipeRoom.handleMessage mm ms st ws ip now nowIso p data).2 =
      (st.connections.filter (fun c => c.readyState == 1)).map Conn.id) ∧
    (∀ p c fr,
      Effect.broadcast c fr ∈ (RecipeRoom.handleMessage mm ms st ws ip now nowIso p data).2 →
      ∃ bm, fr = ServerFrame.messageFrame bm ∧ bm.createdAt = nowIso) ∧
    (∀ (sessions : List Nat) (sendOk : Nat → Bool) (frame : ServerFrame) (c : Nat),
      c ∈ sessions →
      Effect.broadcast c frame ∈ RecipeRoomV3.broadcastLoop sessions sendOk frame ∨
      Effect.broadcastFailed c ∈ RecipeRoomV3.broadcastLoop sessions sendOk frame) := by
  obtain ⟨rl', hrl⟩ :=
    RecipeRoom.handleMessage_admitted mm ms st ws ip now nowIso data hallow
  obtain ⟨st', hacc, hconn, hroom, hrate⟩ :=
    RecipeRoom.handleMessageBody_accepted ms { st with rateLimits := rl' } ws
      nowIso data msgId ivB64 ciphertextB64 version htype hmsg hmne hiv hivne hct
      hctne hver hsize hname
  refine ⟨?_, ?_, ?_⟩
  · intro p
    rw [hrl p, hacc p]
    simp only [RecipeRoom.acceptAndBroadcast, hconn]
    rw [broadcastTargets_append, broadcastTargets_map_broadcast]
    cases p <;> simp [broadcastTargets]
  · intro p c fr hmem
    rw [hrl p, hacc p] at hmem
    simp only [RecipeRoom.acceptAndBroadcast, List.mem_append, List.mem_map,
      List.mem_cons] at hmem
    rcases hmem with ⟨c', _, heq⟩ | h | h
    · cases heq
      exact ⟨_, rfl, rfl⟩
    · cases h
    · cases p <;> simp_all
  · intro sessions sendOk frame c hc
    by_cases h : sendOk c
    · left
      have ht : RecipeRoomV3.trySend sendOk frame c = Effect.broadcast c frame := by
        simp [RecipeRoomV3.trySend, h]
      exact ht ▸ List.mem_map_of_mem _ hc
    · right
      have ht : RecipeRoomV3.trySend sendOk frame c = Effect.broadcastFailed c := by
        simp [RecipeRoomV3.trySend, h]
      exact ht ▸ List.mem_map_of_mem _ hc

/-- Claim C7 as stated is refuted at a concrete input: the submitting
socket is connection 1 and the broadcast of the accepted message is
delivered to connection 1 as well, so the fan-out is not restricted
to every live connection except the sender. -/
theorem handleMessage_broadcast_includes_sender_counterexample :
    Effect.broadcast 1 (ServerFrame.messageFrame ⟨"M1", 1, "T0", "IV", "CT", some "bob"⟩) ∈
      (RecipeRoom.handleMessage 30 16384
        ⟨[], [], [⟨1, 1⟩, ⟨2, 1⟩], some "kitchen"⟩ 1 "ip" 0 "T0" true
        ⟨"message", some "M1", some "IV", some "CT", some "bob", some "F1", some 1⟩).2 := by
  decide

/-- Witness for the amended claim C7 at a concrete accepted message:
the broadcast targets are exactly the two open connections. -/
theorem handleMessage_broadcast_to_open_connections_witness :
    broadcastTargets
        (RecipeRoom.handleMessage 30 16384
          ⟨[], [], [⟨1, 1⟩, ⟨2, 1⟩], some "kitchen"⟩ 1 "ip" 0 "T0" true
          ⟨"message", some "M1", some "IV", some "CT", some "bob", some "F1", some 1⟩).2 =
      (([⟨1, 1⟩, ⟨2, 1⟩] : List Conn).filter (fun c => c.readyState == 1)).map Conn.id :=
  (handleMessage_broadcast_to_open_connections 30 16384
    ⟨[], [], [⟨1, 1⟩, ⟨2, 1⟩], some "kitchen"⟩ 1 "ip" 0 "T0"
    ⟨"message", some "M1", some "IV", some "CT", some "bob", some "F1", some 1⟩
    "M1" "IV" "CT" 1
    (by intro e he; simp [List.lookup] at he) rfl rfl (by decide) rfl (by decide)
    rfl (by decide) rfl (by decide)
    (by intro sn kf hsn hkf h3 h4; cases hsn; cases hkf; rfl)).1 true

/-- Witness for claim C5: an unsigned payload is classified unsigned,
and a first validly signed payload is classified new and recorded. -/
theorem verifyAndCheckTrust_classification_witness :
    verifyAndCheckTrust [] 0 ⟨"hi", "bob", 1000, none, none⟩ "M1" "kitchen" =
        (.unsigned, []) ∧
      verifyAndCheckTrust [] 0
          ⟨"hi", "bob", 1000,
            some (signMessage ⟨⟨some "EC", some "P-256", some "X1", some "Y1"⟩⟩
              "hi" "bob" 1000 "M1"),
            some ⟨some "EC", some "P-256", some "X1", some "Y1"⟩⟩ "M1" "kitchen" =
        (.new, saveTrustedKey [] "kitchen" "bob"
          ⟨some "EC", some "P-256", some "X1", some "Y1"⟩ 0) :=
  ⟨(verifyAndCheckTrust_classification [] 0 ⟨"hi", "bob", 1000, none, none⟩
      "M1" "kitchen").1 (Or.inl rfl),
    (((verifyAndCheckTrust_classification [] 0
        ⟨"hi", "bob", 1000,
          some (signMessage ⟨⟨some "EC", some "P-256", some "X1", some "Y1"⟩⟩
            "hi" "bob" 1000 "M1"),
          some ⟨some "EC", some "P-256", some "X1", some "Y1"⟩⟩ "M1" "kitchen").2.1
      (signMessage ⟨⟨some "EC", some "P-256", some "X1", some "Y1"⟩⟩
        "hi" "bob" 1000 "M1")
      ⟨some "EC", some "P-256", some "X1", some "Y1"⟩ rfl rfl).2
      (by decide)).1 rfl⟩
